import Mathlib

/-!
Verification of the opennx streaming core (nx.py / tracker.py), shallowly
embedded in Lean.  Python bytes are modelled as natural numbers below 256,
Python ints as `Int`/`Nat`, and the float results of `parse_packet` as
rationals: every value the codec produces is an int16 divided by `2^14`,
which is exact in IEEE-754 double precision, so the rational model is
bit-faithful to the Python floats.  Fallible Python calls (struct.unpack
raising struct.error, int.to_bytes raising OverflowError) are modelled as
`Option`.
-/

namespace OpenNx

/-- Protocol constant `DEVICE_NAME` from nx.py / tracker.py. -/
def DEVICE_NAME : String := "Nx Tracker 2"

/-- Protocol constant `START_UUID` (stream control characteristic). -/
def START_UUID : String := "0000a011-5761-7665-7341-7564696f4c74"

/-- Protocol constant `STREAM_UUID` (orientation notification characteristic). -/
def STREAM_UUID : String := "0000a015-5761-7665-7341-7564696f4c74"

/-- Protocol constant `BATTERY_UUID` from opennx/tracker.py. -/
def BATTERY_UUID : String := "00002a19-0000-1000-8000-00805f9b34fb"

/-- The `Quaternion` NamedTuple of nx.py: four float components in wire
order, modelled as rationals (each value is an int16 over a power of two,
hence exact in double precision). -/
structure Quaternion where
  w : ℚ
  x : ℚ
  y : ℚ
  z : ℚ
deriving DecidableEq

/-- One little-endian signed 16-bit integer from two bytes, as Python's
`struct.unpack("<h", ...)` reads it: two's complement of `lo + 256*hi`. -/
def toInt16 (lo hi : ℕ) : ℤ :=
  let u := lo + 256 * hi
  if u < 32768 then (u : ℤ) else (u : ℤ) - 65536

/-- Byte `i` of a payload (used only at indices below the checked length). -/
def byte (data : List ℕ) (i : ℕ) : ℕ :=
  (data.get? i).getD 0

/-- Model of `struct.unpack("<5h", data)`: five little-endian int16 values.
`struct.error` on any length other than 10 is modelled as `none`. -/
def unpack5h (data : List ℕ) : Option (ℤ × ℤ × ℤ × ℤ × ℤ) :=
  if data.length = 10 then
    some (toInt16 (byte data 0) (byte data 1),
          toInt16 (byte data 2) (byte data 3),
          toInt16 (byte data 4) (byte data 5),
          toInt16 (byte data 6) (byte data 7),
          toInt16 (byte data 8) (byte data 9))
  else none

/-- The normalization constant `scale = float(1 << 14)` of `parse_packet`. -/
def scale : ℚ := 16384

/-- Model of `parse_packet` from nx.py: unpack five little-endian int16 values,
divide the first four by `scale`, return them as the quaternion in wire
order; the fifth value is read but dropped. -/
def parse_packet (data : List ℕ) : Option Quaternion :=
  (unpack5h data).map fun v =>
    ⟨v.1 / scale, v.2.1 / scale, v.2.2.1 / scale, v.2.2.2.1 / scale⟩

/-- Little-endian two-byte encoding of an int16 (for the round-trip claim):
the two's-complement residue split into low and high byte. -/
def int16ToBytes (v : ℤ) : List ℕ :=
  [(v % 65536).toNat % 256, (v % 65536).toNat / 256]

/-- A 10-byte packet built from five chosen int16 values, little-endian. -/
def buildPacket (v0 v1 v2 v3 v4 : ℤ) : List ℕ :=
  int16ToBytes v0 ++ int16ToBytes v1 ++ int16ToBytes v2 ++
    int16ToBytes v3 ++ int16ToBytes v4

/-- A scan result entry as nx.py / tracker.py use it: an advertised name
and an address. -/
structure BLEDevice where
  name : String
  address : String
deriving DecidableEq

/-- The fatal error of `get_nx_tracker` (`RuntimeError("No Nx Tracker 2
devices were found!")`), the spec's `DeviceNotFound`. -/
inductive FindError
  | DeviceNotFound
deriving DecidableEq

/-- Model of `get_nx_tracker` from tracker.py (minus the scan itself, which is
transport-owned): filter the scan results by `DEVICE_NAME`; raise when no
match; return the first match's address; the boolean records whether the
non-fatal multiple-devices warning was printed (`len(nxs) > 1`). -/
def get_nx_tracker (devices : List BLEDevice) :
    Except FindError (String × Bool) :=
  match devices.filter (fun d => d.name == DEVICE_NAME) with
  | [] => Except.error FindError.DeviceNotFound
  | d :: rest => Except.ok (d.address, !rest.isEmpty)

/-- Model of `int.from_bytes(data)` as `_batt_notify` in opennx/tracker.py calls it:
big-endian, unsigned, any length (Python 3.11 defaults), total. -/
def int_from_bytes (data : List ℕ) : ℕ :=
  data.foldl (fun acc b => acc * 256 + b) 0

/-- One delivery attempt of a decoded sample to a sink inside `_on_notify`
of opennx/tracker.py: the Tk-label update callback (`self._update`) or the
OSC broadcast (`self.osc_client.send_message("/quat", quat)`). -/
inductive Delivery
  | ui (q : Quaternion)
  | osc (q : Quaternion)
deriving DecidableEq

/-- Model of `_on_notify` from opennx/tracker.py for a single inbound notification:
decode, then call the UI sink, then the OSC sink.  `uiFails q` / `oscFails q`
say whether that sink raises on that sample.  Returns the sinks actually
invoked, in order, and whether an exception escaped the handler (a raising
decode or sink aborts the rest of the handler body). -/
def on_notify (uiFails oscFails : Quaternion → Bool) (data : List ℕ) :
    List Delivery × Bool :=
  match parse_packet data with
  | none => ([], true)
  | some q =>
    if uiFails q then ([Delivery.ui q], true)
    else if oscFails q then ([Delivery.ui q, Delivery.osc q], true)
    else ([Delivery.ui q, Delivery.osc q], false)

/-- A stream of notifications: the transport invokes `_on_notify` once per
inbound payload, each invocation independent of the others. -/
def process (uiFails oscFails : Quaternion → Bool) (packets : List (List ℕ)) :
    List (List Delivery × Bool) :=
  packets.map (on_notify uiFails oscFails)

/-- A transport operation issued by the session on its BleakClient. -/
inductive TOp
  | connect
  | write (uuid : String) (payload : List ℕ)
  | subscribe (uuid : String)
  | unsubscribe (uuid : String)
  | disconnect
  | readBattery
deriving DecidableEq

/-- The observable session state: the `_running` flag, whether the client
connection is established, and the list of subscribed notification
characteristics in subscription order. -/
structure NxState where
  running : Bool
  connected : Bool
  subs : List String
deriving DecidableEq

/-- The freshly constructed session: `_running = False`, no connection,
no subscriptions. -/
def initState : NxState := ⟨false, false, []⟩

/-- Outcome of one session operation: the state afterwards, the transport
operations attempted in order, and whether an exception escaped. -/
structure StepResult where
  state : NxState
  ops : List TOp
  raised : Bool
deriving DecidableEq

/-- Model of `rate.to_bytes(1)` (big-endian unsigned, Python 3.11 default):
`OverflowError`, modelled as `none`, outside 0..255. -/
def to_bytes1 (rate : ℤ) : Option (List ℕ) :=
  if 0 ≤ rate ∧ rate < 256 then some [rate.toNat] else none

/-- Model of `NxTracker.start_stream(rate)` from nx.py, run against a transport
environment `env` telling which operations succeed.  Mirrors the source
order exactly: return if `_running`; set `_running = True`; connect; encode
`rate.to_bytes(1)` and write it to `START_UUID`; subscribe to
`STREAM_UUID`.  A failing step propagates with no rollback. -/
def NxTracker.start_stream (env : TOp → Bool) (s : NxState) (rate : ℤ) :
    StepResult :=
  if s.running then ⟨s, [], false⟩
  else
    let s1 : NxState := ⟨true, s.connected, s.subs⟩
    if !env TOp.connect then ⟨s1, [TOp.connect], true⟩
    else
      let s2 : NxState := ⟨true, true, s.subs⟩
      match to_bytes1 rate with
      | none => ⟨s2, [TOp.connect], true⟩
      | some payload =>
        if !env (TOp.write START_UUID payload) then
          ⟨s2, [TOp.connect, TOp.write START_UUID payload], true⟩
        else if !env (TOp.subscribe STREAM_UUID) then
          ⟨s2, [TOp.connect, TOp.write START_UUID payload,
                TOp.subscribe STREAM_UUID], true⟩
        else
          ⟨⟨true, true, s.subs ++ [STREAM_UUID]⟩,
           [TOp.connect, TOp.write START_UUID payload,
            TOp.subscribe STREAM_UUID], false⟩

/-- Model of `NxTracker.stop_stream` from nx.py: return if not `_running`; set
`_running = False`; write `b"\x00"` to `START_UUID`; `stop_notify` on
`STREAM_UUID`; disconnect.  A failing step propagates, but `_running` is
already cleared. -/
def NxTracker.stop_stream (env : TOp → Bool) (s : NxState) : StepResult :=
  if !s.running then ⟨s, [], false⟩
  else
    let s1 : NxState := ⟨false, s.connected, s.subs⟩
    if !env (TOp.write START_UUID [0]) then
      ⟨s1, [TOp.write START_UUID [0]], true⟩
    else if !env (TOp.unsubscribe STREAM_UUID) then
      ⟨s1, [TOp.write START_UUID [0], TOp.unsubscribe STREAM_UUID], true⟩
    else
      let s2 : NxState := ⟨false, s.connected, s1.subs.erase STREAM_UUID⟩
      if !env TOp.disconnect then
        ⟨s2, [TOp.write START_UUID [0], TOp.unsubscribe STREAM_UUID,
              TOp.disconnect], true⟩
      else
        ⟨⟨false, false, s2.subs⟩,
         [TOp.write START_UUID [0], TOp.unsubscribe STREAM_UUID,
          TOp.disconnect], false⟩

/-- Model of `BleakRunner.start_stream` from opennx/tracker.py (the battery-capable
variant), with the scheduled `_go()` coroutine run to completion: return if
`_running`; set `_running = True`; connect; write `b"\xff"` to
`START_UUID`; `start_notify` on `STREAM_UUID`; `start_notify` on
`BATTERY_UUID`; read the battery characteristic once.  Exceptions inside
the scheduled coroutine stop it but are never observed by the caller. -/
def BleakRunner.start_stream (env : TOp → Bool) (s : NxState) : StepResult :=
  if s.running then ⟨s, [], false⟩
  else
    let s1 : NxState := ⟨true, s.connected, s.subs⟩
    if !env TOp.connect then ⟨s1, [TOp.connect], true⟩
    else
      let s2 : NxState := ⟨true, true, s.subs⟩
      if !env (TOp.write START_UUID [255]) then
        ⟨s2, [TOp.connect, TOp.write START_UUID [255]], true⟩
      else if !env (TOp.subscribe STREAM_UUID) then
        ⟨s2, [TOp.connect, TOp.write START_UUID [255],
              TOp.subscribe STREAM_UUID], true⟩
      else
        let s3 : NxState := ⟨true, true, s.subs ++ [STREAM_UUID]⟩
        if !env (TOp.subscribe BATTERY_UUID) then
          ⟨s3, [TOp.connect, TOp.write START_UUID [255],
                TOp.subscribe STREAM_UUID, TOp.subscribe BATTERY_UUID], true⟩
        else
          let s4 : NxState := ⟨true, true, s.subs ++ [STREAM_UUID, BATTERY_UUID]⟩
          ⟨s4, [TOp.connect, TOp.write START_UUID [255],
                TOp.subscribe STREAM_UUID, TOp.subscribe BATTERY_UUID,
                TOp.readBattery], !env TOp.readBattery⟩

/-- Model of `BleakRunner.stop_stream` from opennx/tracker.py: return if not
`_running`; set `_running = False`; the scheduled `_stop()` writes
`b"\x00"` to `START_UUID`, `stop_notify` on `STREAM_UUID` only, and
disconnects.  The battery subscription is never explicitly removed. -/
def BleakRunner.stop_stream (env : TOp → Bool) (s : NxState) : StepResult :=
  if !s.running then ⟨s, [], false⟩
  else
    let s1 : NxState := ⟨false, s.connected, s.subs⟩
    if !env (TOp.write START_UUID [0]) then
      ⟨s1, [TOp.write START_UUID [0]], true⟩
    else if !env (TOp.unsubscribe STREAM_UUID) then
      ⟨s1, [TOp.write START_UUID [0], TOp.unsubscribe STREAM_UUID], true⟩
    else
      let s2 : NxState := ⟨false, s.connected, s1.subs.erase STREAM_UUID⟩
      if !env TOp.disconnect then
        ⟨s2, [TOp.write START_UUID [0], TOp.unsubscribe STREAM_UUID,
              TOp.disconnect], true⟩
      else
        ⟨⟨false, false, s2.subs⟩,
         [TOp.write START_UUID [0], TOp.unsubscribe STREAM_UUID,
          TOp.disconnect], false⟩

/-- The all-success transport environment. -/
def envOk : TOp → Bool := fun _ => true

/-- A transport environment in which only subscribing to the orientation
channel fails. -/
def envSubFail : TOp → Bool := fun op => !(op == TOp.subscribe STREAM_UUID)

lemma toInt16_int16ToBytes (v : ℤ) (h1 : -32768 ≤ v) (h2 : v < 32768) :
    toInt16 ((v % 65536).toNat % 256) ((v % 65536).toNat / 256) = v := by
  simp only [toInt16]
  split <;> omega

lemma buildPacket_length (v0 v1 v2 v3 v4 : ℤ) :
    (buildPacket v0 v1 v2 v3 v4).length = 10 := by
  simp [buildPacket, int16ToBytes]

lemma unpack5h_buildPacket (v0 v1 v2 v3 v4 : ℤ)
    (h0 : -32768 ≤ v0 ∧ v0 < 32768) (h1 : -32768 ≤ v1 ∧ v1 < 32768)
    (h2 : -32768 ≤ v2 ∧ v2 < 32768) (h3 : -32768 ≤ v3 ∧ v3 < 32768)
    (h4 : -32768 ≤ v4 ∧ v4 < 32768) :
    unpack5h (buildPacket v0 v1 v2 v3 v4) = some (v0, v1, v2, v3, v4) := by
  simp only [unpack5h, buildPacket_length, if_pos]
  simp only [buildPacket, int16ToBytes, List.cons_append, List.nil_append,
    byte, List.get?, Option.getD_some]
  rw [toInt16_int16ToBytes v0 h0.1 h0.2, toInt16_int16ToBytes v1 h1.1 h1.2,
    toInt16_int16ToBytes v2 h2.1 h2.2, toInt16_int16ToBytes v3 h3.1 h3.2,
    toInt16_int16ToBytes v4 h4.1 h4.2]

lemma component_bounds (i : ℤ) (h1 : -32768 ≤ i) (h2 : i ≤ 32767) :
    -2 ≤ (i : ℚ) / scale ∧ (i : ℚ) / scale < 2 := by
  have hs : (0 : ℚ) < scale := by norm_num [scale]
  constructor
  · rw [le_div_iff₀ hs]
    have : (-32768 : ℚ) ≤ (i : ℚ) := by exact_mod_cast h1
    norm_num [scale]
    linarith
  · rw [div_lt_iff₀ hs]
    have : (i : ℚ) ≤ 32767 := by exact_mod_cast h2
    norm_num [scale]
    linarith

lemma toInt16_bounds (lo hi : ℕ) (hlo : lo < 256) (hhi : hi < 256) :
    -32768 ≤ toInt16 lo hi ∧ toInt16 lo hi ≤ 32767 := by
  simp only [toInt16]
  split <;> omega

lemma byte_lt (data : List ℕ) (hb : ∀ b ∈ data, b < 256) (i : ℕ) :
    byte data i < 256 := by
  unfold byte
  rcases h : data.get? i with _ | b
  · simp
  · simpa using hb b (List.get?_mem h)

lemma foldl_mul_add_bound (data : List ℕ) (hd : ∀ b ∈ data, b < 256) :
    ∀ acc : ℕ,
      data.foldl (fun a b => a * 256 + b) acc < (acc + 1) * 256 ^ data.length := by
  induction data with
  | nil => intro acc; simp
  | cons b t ih =>
    intro acc
    have hb : b < 256 := hd b (by simp)
    have ht : ∀ x ∈ t, x < 256 := fun x hx => hd x (by simp [hx])
    have h2 := ih ht (acc * 256 + b)
    have h3 : (acc * 256 + b + 1) * 256 ^ t.length ≤
        ((acc + 1) * 256) * 256 ^ t.length :=
      Nat.mul_le_mul_right _ (by omega)
    calc (b :: t).foldl (fun a c => a * 256 + c) acc
        = t.foldl (fun a c => a * 256 + c) (acc * 256 + b) := rfl
      _ < (acc * 256 + b + 1) * 256 ^ t.length := h2
      _ ≤ ((acc + 1) * 256) * 256 ^ t.length := h3
      _ = (acc + 1) * 256 ^ (b :: t).length := by
          simp [List.length_cons, pow_succ]; ring

/-- C1: decoding a packet built from any five int16 values yields the first
four divided by 16384 as the quaternion components, in wire order, with no
reordering or sign change, ignoring the fifth value. -/
theorem C1_decode_roundtrip (v0 v1 v2 v3 v4 : ℤ)
    (h0 : -32768 ≤ v0 ∧ v0 < 32768) (h1 : -32768 ≤ v1 ∧ v1 < 32768)
    (h2 : -32768 ≤ v2 ∧ v2 < 32768) (h3 : -32768 ≤ v3 ∧ v3 < 32768)
    (h4 : -32768 ≤ v4 ∧ v4 < 32768) :
    parse_packet (buildPacket v0 v1 v2 v3 v4) =
      some ⟨(v0 : ℚ) / 16384, (v1 : ℚ) / 16384,
            (v2 : ℚ) / 16384, (v3 : ℚ) / 16384⟩ := by
  rw [parse_packet, unpack5h_buildPacket v0 v1 v2 v3 v4 h0 h1 h2 h3 h4]
  simp [scale]

/-- Witness for C1 at the spec's scenario values (0, 0, 16384, 0, 10),
whose decode is the quaternion (0, 0, 1, 0). -/
theorem C1_decode_roundtrip_witness :
    parse_packet (buildPacket 0 0 16384 0 10) =
      some ⟨((0 : ℤ) : ℚ) / 16384, ((0 : ℤ) : ℚ) / 16384,
            ((16384 : ℤ) : ℚ) / 16384, ((0 : ℤ) : ℚ) / 16384⟩ :=
  C1_decode_roundtrip 0 0 16384 0 10 (by norm_num) (by norm_num)
    (by norm_num) (by norm_num) (by norm_num)

/-- C5: the decode succeeds exactly on inputs of length 10 — every
wrong-length input fails (struct.error, the spec's MalformedPacket) with no
partial result, and every 10-byte input decodes without raising, whatever
its content. -/
theorem C5_length_check (data : List ℕ) :
    (parse_packet data).isSome ↔ data.length = 10 := by
  unfold parse_packet unpack5h
  split <;> simp_all

/-- C8: every quaternion component produced from a 10-byte input (bytes
below 256) lies in the half-open interval from -2 to 2. -/
theorem C8_component_range (data : List ℕ) (hb : ∀ b ∈ data, b < 256)
    (q : Quaternion) (hq : parse_packet data = some q) :
    (-2 ≤ q.w ∧ q.w < 2) ∧ (-2 ≤ q.x ∧ q.x < 2) ∧
    (-2 ≤ q.y ∧ q.y < 2) ∧ (-2 ≤ q.z ∧ q.z < 2) := by
  unfold parse_packet unpack5h at hq
  by_cases hl : data.length = 10
  · rw [if_pos hl] at hq
    simp only [Option.map_some', Option.some.injEq] at hq
    subst hq
    refine ⟨?_, ?_, ?_, ?_⟩ <;>
      exact component_bounds _
        (toInt16_bounds _ _ (byte_lt data hb _) (byte_lt data hb _)).1
        (toInt16_bounds _ _ (byte_lt data hb _) (byte_lt data hb _)).2
  · rw [if_neg hl] at hq
    simp at hq

/-- Witness for C8 at the all-0xFF packet, whose components all decode to
-1/16384. -/
theorem C8_component_range_witness :
    (-2 ≤ (Quaternion.mk (-1 / 16384) (-1 / 16384) (-1 / 16384) (-1 / 16384)).w ∧
      (Quaternion.mk (-1 / 16384) (-1 / 16384) (-1 / 16384) (-1 / 16384)).w < 2) ∧
    (-2 ≤ (Quaternion.mk (-1 / 16384) (-1 / 16384) (-1 / 16384) (-1 / 16384)).x ∧
      (Quaternion.mk (-1 / 16384) (-1 / 16384) (-1 / 16384) (-1 / 16384)).x < 2) ∧
    (-2 ≤ (Quaternion.mk (-1 / 16384) (-1 / 16384) (-1 / 16384) (-1 / 16384)).y ∧
      (Quaternion.mk (-1 / 16384) (-1 / 16384) (-1 / 16384) (-1 / 16384)).y < 2) ∧
    (-2 ≤ (Quaternion.mk (-1 / 16384) (-1 / 16384) (-1 / 16384) (-1 / 16384)).z ∧
      (Quaternion.mk (-1 / 16384) (-1 / 16384) (-1 / 16384) (-1 / 16384)).z < 2) :=
  C8_component_range [255, 255, 255, 255, 255, 255, 255, 255, 255, 255]
    (by decide) (Quaternion.mk (-1 / 16384) (-1 / 16384) (-1 / 16384) (-1 / 16384))
    (by simp [parse_packet, unpack5h, byte, toInt16, scale])

/-- C4: device selection fails with DeviceNotFound on zero name matches,
returns the unique match on one, and on two or more returns the first match
in input order while flagging the non-fatal multiple-devices warning. -/
theorem C4_find_device (devices : List BLEDevice) :
    (devices.filter (fun e => e.name == DEVICE_NAME) = [] →
      get_nx_tracker devices = Except.error FindError.DeviceNotFound) ∧
    (∀ d : BLEDevice, devices.filter (fun e => e.name == DEVICE_NAME) = [d] →
      get_nx_tracker devices = Except.ok (d.address, false)) ∧
    (∀ d d2 : BLEDevice, ∀ rest : List BLEDevice,
      devices.filter (fun e => e.name == DEVICE_NAME) = d :: d2 :: rest →
      get_nx_tracker devices = Except.ok (d.address, true)) := by
  refine ⟨fun h => ?_, fun d h => ?_, fun d d2 rest h => ?_⟩ <;>
    simp [get_nx_tracker, h]

/-- Witness for C4 at the spec's scenario: two matching entries and one
non-matching entry — the first match's address is returned with the
warning flag set. -/
theorem C4_find_device_witness :
    get_nx_tracker [⟨"Nx Tracker 2", "AA"⟩, ⟨"Other", "BB"⟩,
      ⟨"Nx Tracker 2", "CC"⟩] = Except.ok ("AA", true) :=
  (C4_find_device [⟨"Nx Tracker 2", "AA"⟩, ⟨"Other", "BB"⟩,
    ⟨"Nx Tracker 2", "CC"⟩]).2.2 ⟨"Nx Tracker 2", "AA"⟩
    ⟨"Nx Tracker 2", "CC"⟩ [] (by decide)

/-- C9: the battery decode is total over every input length: the empty
payload decodes to 0, a two-byte payload decodes big-endian up to 65535,
any payload of valid bytes stays below 256 to its length, and the one-byte
payload 0xFF decodes to 255, so no clamping to 0..100 happens. -/
theorem C9_battery_decode (data : List ℕ) (b0 b1 : ℕ)
    (hb0 : b0 < 256) (hb1 : b1 < 256) (hd : ∀ b ∈ data, b < 256) :
    int_from_bytes [] = 0 ∧
    int_from_bytes [b0, b1] = 256 * b0 + b1 ∧
    int_from_bytes [b0, b1] ≤ 65535 ∧
    int_from_bytes data < 256 ^ data.length ∧
    100 < int_from_bytes [255] := by
  have h2 : int_from_bytes [b0, b1] = 256 * b0 + b1 := by
    simp [int_from_bytes]; ring
  refine ⟨rfl, h2, by omega, ?_, by decide⟩
  have := foldl_mul_add_bound data hd 0
  simpa [int_from_bytes] using this

/-- Witness for C9 at the payloads [], [255, 255], [1, 2, 3] and [255]. -/
theorem C9_battery_decode_witness :
    int_from_bytes [] = 0 ∧
    int_from_bytes [255, 255] = 256 * 255 + 255 ∧
    int_from_bytes [255, 255] ≤ 65535 ∧
    int_from_bytes [1, 2, 3] < 256 ^ ([1, 2, 3] : List ℕ).length ∧
    100 < int_from_bytes [255] :=
  C9_battery_decode [1, 2, 3] 255 255 (by decide) (by decide) (by decide)

/-- C7: a second start without an intervening stop is a no-op — from the
initial state, a successful start issues connect, the rate write and the
orientation subscription once each, and the immediately following start
performs no transport operation at all. -/
theorem C7_start_idempotent (env : TOp → Bool) (rate : ℤ)
    (hrate : 0 ≤ rate ∧ rate < 256)
    (hc : env TOp.connect = true)
    (hw : env (TOp.write START_UUID [rate.toNat]) = true)
    (hs : env (TOp.subscribe STREAM_UUID) = true) :
    (NxTracker.start_stream env initState rate).ops =
      [TOp.connect, TOp.write START_UUID [rate.toNat],
       TOp.subscribe STREAM_UUID] ∧
    NxTracker.start_stream env
        (NxTracker.start_stream env initState rate).state rate =
      ⟨(NxTracker.start_stream env initState rate).state, [], false⟩ := by
  have hb : to_bytes1 rate = some [rate.toNat] := by
    simp only [to_bytes1, if_pos hrate]
  simp [NxTracker.start_stream, initState, hb, hc, hw, hs]

/-- Witness for C7 with the all-success transport and the default rate 255. -/
theorem C7_start_idempotent_witness :
    (NxTracker.start_stream envOk initState 255).ops =
      [TOp.connect, TOp.write START_UUID [(255 : ℤ).toNat],
       TOp.subscribe STREAM_UUID] ∧
    NxTracker.start_stream envOk
        (NxTracker.start_stream envOk initState 255).state 255 =
      ⟨(NxTracker.start_stream envOk initState 255).state, [], false⟩ :=
  C7_start_idempotent envOk 255 (by norm_num) rfl rfl rfl

/-- C2 counterexample: when subscribing to the orientation channel fails
after a successful connect, the failed start leaves the running flag set
(not Idle) and the connection established (not released), and the
subsequent start is a no-op instead of redoing the connect/subscribe
sequence. -/
theorem C2_start_failure_counterexample :
    (NxTracker.start_stream envSubFail initState 255).raised = true ∧
    (NxTracker.start_stream envSubFail initState 255).state =
      ⟨true, true, []⟩ ∧
    NxTracker.start_stream envSubFail
        (NxTracker.start_stream envSubFail initState 255).state 255 =
      ⟨⟨true, true, []⟩, [], false⟩ := by
  decide

/-- C2 amended: a failing start from Idle propagates the exception, but the
running flag stays set (the session is stuck as Streaming), the
subscription list is unchanged (nothing was subscribed, and nothing is
rolled back), the connection is not released when connect had succeeded,
and every subsequent start is a no-op. -/
theorem C2_start_failure_amended (env : TOp → Bool) (s : NxState) (rate : ℤ)
    (hidle : s.running = false)
    (hr : (NxTracker.start_stream env s rate).raised = true) :
    (NxTracker.start_stream env s rate).state.running = true ∧
    (NxTracker.start_stream env s rate).state.subs = s.subs ∧
    (env TOp.connect = true →
      (NxTracker.start_stream env s rate).state.connected = true) ∧
    NxTracker.start_stream env
        (NxTracker.start_stream env s rate).state rate =
      ⟨(NxTracker.start_stream env s rate).state, [], false⟩ := by
  by_cases hc : env TOp.connect
  · rcases hb : to_bytes1 rate with _ | payload
    · simp [NxTracker.start_stream, hidle, hc, hb]
    · by_cases hw : env (TOp.write START_UUID payload)
      · by_cases hs2 : env (TOp.subscribe STREAM_UUID)
        · simp [NxTracker.start_stream, hidle, hc, hb, hw, hs2] at hr
        · simp [NxTracker.start_stream, hidle, hc, hb, hw, hs2]
      · simp [NxTracker.start_stream, hidle, hc, hb, hw]
  · simp [NxTracker.start_stream, hidle, hc]

/-- Witness for the amended C2 at the subscribe-fails environment. -/
theorem C2_start_failure_amended_witness :
    (NxTracker.start_stream envSubFail initState 255).state.running = true ∧
    (NxTracker.start_stream envSubFail initState 255).state.subs =
      initState.subs ∧
    (envSubFail TOp.connect = true →
      (NxTracker.start_stream envSubFail initState 255).state.connected =
        true) ∧
    NxTracker.start_stream envSubFail
        (NxTracker.start_stream envSubFail initState 255).state 255 =
      ⟨(NxTracker.start_stream envSubFail initState 255).state, [], false⟩ :=
  C2_start_failure_amended envSubFail initState 255 rfl (by decide)

/-- The spec's scenario packet: the int16 little-endian values
(0, 0, 16384, 0, 10), decoding to the quaternion (0, 0, 1, 0). -/
def scenarioPacket : List ℕ := [0, 0, 0, 0, 0, 64, 0, 0, 10, 0]

/-- C3 counterexample: a UI sink that raises on the scenario packet's
sample prevents the OSC sink from receiving that same sample — only the UI
delivery happens. -/
theorem C3_sink_isolation_counterexample :
    (on_notify (fun _ => true) (fun _ => false) scenarioPacket).1 =
      [Delivery.ui ⟨0, 0, 1, 0⟩] ∧
    Delivery.osc ⟨0, 0, 1, 0⟩ ∉
      (on_notify (fun _ => true) (fun _ => false) scenarioPacket).1 := by
  constructor
  · simp [on_notify, scenarioPacket, parse_packet, unpack5h, byte, toInt16,
      scale]
  · simp [on_notify, scenarioPacket, parse_packet, unpack5h, byte, toInt16,
      scale]

/-- C3 amended: sinks run in the fixed order UI first then OSC, but a
raising UI sink prevents the OSC delivery of that sample (the exception
escapes the handler); each notification of a stream is handled
independently, so a failure on one notification leaves the handling of
every other notification unchanged. -/
theorem C3_sink_isolation_amended (uiFails oscFails : Quaternion → Bool)
    (data : List ℕ) (q : Quaternion) (hq : parse_packet data = some q) :
    ((on_notify uiFails oscFails data).1 =
      if uiFails q then [Delivery.ui q]
      else [Delivery.ui q, Delivery.osc q]) ∧
    (∀ packets : List (List ℕ), ∀ i : ℕ,
      (process uiFails oscFails packets).get? i =
        (packets.get? i).map (on_notify uiFails oscFails)) := by
  constructor
  · by_cases hu : uiFails q
    · simp [on_notify, hq, hu]
    · by_cases ho : oscFails q <;> simp [on_notify, hq, hu, ho]
  · intro packets i
    simp [process]

/-- Witness for the amended C3 at the scenario packet with non-failing
sinks: both sinks receive the sample in order, and the one-packet stream
processes it exactly as the single handler call does. -/
theorem C3_sink_isolation_amended_witness :
    ((on_notify (fun _ => false) (fun _ => false) scenarioPacket).1 =
      if (fun (_ : Quaternion) => false) (⟨0, 0, 1, 0⟩ : Quaternion) then
        [Delivery.ui ⟨0, 0, 1, 0⟩]
      else [Delivery.ui ⟨0, 0, 1, 0⟩, Delivery.osc ⟨0, 0, 1, 0⟩]) ∧
    (process (fun _ => false) (fun _ => false) [scenarioPacket]).get? 0 =
      ([scenarioPacket].get? 0).map
        (on_notify (fun _ => false) (fun _ => false)) :=
  ⟨(C3_sink_isolation_amended (fun _ => false) (fun _ => false)
      scenarioPacket ⟨0, 0, 1, 0⟩
      (by simp [parse_packet, unpack5h, byte, toInt16, scale,
        scenarioPacket])).1,
   (C3_sink_isolation_amended (fun _ => false) (fun _ => false)
      scenarioPacket ⟨0, 0, 1, 0⟩
      (by simp [parse_packet, unpack5h, byte, toInt16, scale,
        scenarioPacket])).2 [scenarioPacket] 0⟩

/-- C6 counterexample: in the battery-capable variant a successful start
subscribes both the orientation and the battery channels, yet the stop
sequence never issues an unsubscribe for the battery channel. -/
theorem C6_stop_counterexample :
    (BleakRunner.start_stream envOk initState).state.subs =
      [STREAM_UUID, BATTERY_UUID] ∧
    TOp.unsubscribe BATTERY_UUID ∉
      (BleakRunner.stop_stream envOk
        (BleakRunner.start_stream envOk initState).state).ops := by
  decide

/-- C6 amended: stop while Idle performs no transport operation (in both
variants); stop while Streaming writes the single-byte 0x00 stop control,
unsubscribes only the orientation channel (the battery channel is never
explicitly unsubscribed and is only torn down by the disconnect),
disconnects, and leaves the running flag cleared unconditionally, whatever
transport steps fail. -/
theorem C6_stop_amended (env : TOp → Bool) (s : NxState) :
    (s.running = false →
      BleakRunner.stop_stream env s = ⟨s, [], false⟩ ∧
      NxTracker.stop_stream env s = ⟨s, [], false⟩) ∧
    (s.running = true →
      (BleakRunner.stop_stream env s).state.running = false ∧
      TOp.unsubscribe BATTERY_UUID ∉ (BleakRunner.stop_stream env s).ops ∧
      (env (TOp.write START_UUID [0]) = true →
        env (TOp.unsubscribe STREAM_UUID) = true →
        env TOp.disconnect = true →
        (BleakRunner.stop_stream env s).ops =
          [TOp.write START_UUID [0], TOp.unsubscribe STREAM_UUID,
           TOp.disconnect])) := by
  constructor
  · intro h
    constructor <;> simp [BleakRunner.stop_stream, NxTracker.stop_stream, h]
  · intro h
    by_cases h1 : env (TOp.write START_UUID [0]) <;>
      by_cases h2 : env (TOp.unsubscribe STREAM_UUID) <;>
        by_cases h3 : env TOp.disconnect <;>
          simp [BleakRunner.stop_stream, h, h1, h2, h3] <;> decide

/-- Witness for the amended C6 at the all-success transport from the
Streaming state with both channels subscribed. -/
theorem C6_stop_amended_witness :
    (BleakRunner.stop_stream envOk
        ⟨true, true, [STREAM_UUID, BATTERY_UUID]⟩).state.running = false ∧
    TOp.unsubscribe BATTERY_UUID ∉
      (BleakRunner.stop_stream envOk
        ⟨true, true, [STREAM_UUID, BATTERY_UUID]⟩).ops ∧
    (BleakRunner.stop_stream envOk
        ⟨true, true, [STREAM_UUID, BATTERY_UUID]⟩).ops =
      [TOp.write START_UUID [0], TOp.unsubscribe STREAM_UUID,
       TOp.disconnect] :=
  ⟨((C6_stop_amended envOk ⟨true, true, [STREAM_UUID, BATTERY_UUID]⟩).2
      rfl).1,
   ((C6_stop_amended envOk ⟨true, true, [STREAM_UUID, BATTERY_UUID]⟩).2
      rfl).2.1,
   ((C6_stop_amended envOk ⟨true, true, [STREAM_UUID, BATTERY_UUID]⟩).2
      rfl).2.2 rfl rfl rfl⟩

/-- C10 counterexample: with an out-of-range rate (256) the start raises
only after the connect has succeeded, so the session is left with an
active connection — the claim's "no active connection" is wrong. -/
theorem C10_overflow_counterexample :
    (NxTracker.start_stream envOk initState 256).raised = true ∧
    (NxTracker.start_stream envOk initState 256).state.connected = true ∧
    (NxTracker.start_stream envOk initState 256).ops = [TOp.connect] := by
  decide

/-- C10 amended: a start from Idle with a rate outside 0..255 sets the
running flag and attempts the connect first; when connect succeeds,
encoding the payload raises OverflowError before the control write, so the
session is left marked Streaming with an established connection and no
subscription, and every subsequent start is a no-op. -/
theorem C10_overflow_amended (env : TOp → Bool) (rate : ℤ)
    (hrate : rate < 0 ∨ 256 ≤ rate) (hc : env TOp.connect = true) :
    NxTracker.start_stream env initState rate =
      ⟨⟨true, true, []⟩, [TOp.connect], true⟩ ∧
    NxTracker.start_stream env ⟨true, true, []⟩ rate =
      ⟨⟨true, true, []⟩, [], false⟩ := by
  have hb : to_bytes1 rate = none := by
    simp only [to_bytes1, ite_eq_right_iff]
    intro h
    omega
  simp [NxTracker.start_stream, initState, hb, hc]

/-- Witness for the amended C10 at rate 256 with the all-success
transport. -/
theorem C10_overflow_amended_witness :
    NxTracker.start_stream envOk initState 256 =
      ⟨⟨true, true, []⟩, [TOp.connect], true⟩ ∧
    NxTracker.start_stream envOk ⟨true, true, []⟩ 256 =
      ⟨⟨true, true, []⟩, [], false⟩ :=
  C10_overflow_amended envOk 256 (Or.inr (by norm_num)) rfl

end OpenNx
